import Mathlib

/-!
Shallow embedding of the capstone CRUD API (src/app.py, src/models.py).

JSON request/response bodies are modelled by an inductive `Json` type; a
parsed request body (`request.get_json()`) is `Option (List (String × Json))`:
`none` when no valid JSON body is present, `some kvs` for a JSON object with
fields `kvs` (parsed Python dicts have pairwise distinct keys, and lookup
takes the first matching key).  Python truthiness of JSON values is `truthy`.
Database tables are in-memory lists of records together with the next
auto-assigned primary key.  SQLAlchemy comparison of the integer `id` column
against the string path segment is modelled on canonical decimal strings via
`toString`.
-/

namespace Capstone

inductive Json where
  | null
  | bool (b : Bool)
  | int (n : Int)
  | str (s : String)
  | arr (items : List Json)
  | obj (fields : List (String × Json))

/-- Python truthiness of a JSON value (`if not x` branches on its negation). -/
def truthy : Json → Bool
  | .null => false
  | .bool b => b
  | .int n => n != 0
  | .str s => !(s == "")
  | .arr items => !items.isEmpty
  | .obj fields => !fields.isEmpty

/-- Truthiness of `request.get_json()`: `None` and the empty object are falsy. -/
def truthyBody : Option (List (String × Json)) → Bool
  | none => false
  | some kvs => !kvs.isEmpty

/-- Python `body.get(k, default)` on a parsed JSON object. -/
def dictGet (kvs : List (String × Json)) (k : String) (default : Json) : Json :=
  match kvs.find? (fun kv => kv.1 == k) with
  | some kv => kv.2
  | none => default

/-- Presence-aware lookup: `some v` when key `k` is present with value `v`. -/
def lookupKey (kvs : List (String × Json)) (k : String) : Option Json :=
  (kvs.find? (fun kv => kv.1 == k)).map (fun kv => kv.2)

/-- Modelled from the spec: `config.py` is absent from src/; §4.4 fixes
`ROWS_PER_PAGE` as a configuration constant and the `paginate_results`
docstring caps a page at 10 objects. -/
def ROWS_PER_PAGE : Nat := 10

/-- Resolve one slice endpoint the way Python does for `l[start:stop]`:
negative indices count from the end, then both are clamped into `[0, n]`. -/
def pyBound (n : Nat) (i : Int) : Nat :=
  if 0 ≤ i then min i.toNat n else n - min (-i).toNat n

/-- Python list slicing `l[start:stop]`. -/
def pythonSlice {α : Type} (l : List α) (start stop : Int) : List α :=
  let s := pyBound l.length start
  let e := pyBound l.length stop
  (l.drop s).take (e - s)

/-- `paginate_results` (src/app.py lines 52-72), generic in the record type:
formats the selection and returns the slice
`objects_formatted[(page-1)*ROWS_PER_PAGE : page*ROWS_PER_PAGE]`.
The page number is the `page` query parameter as an `int` (default 1). -/
def paginate_results {α : Type} (format : α → Json) (page : Int)
    (selection : List α) : List Json :=
  let start := (page - 1) * (ROWS_PER_PAGE : Int)
  let stop := start + (ROWS_PER_PAGE : Int)
  let objects_formatted := selection.map format
  pythonSlice objects_formatted start stop

/-- `Person` model (src/models.py lines 73-103).  Field values are stored as
the JSON values the handlers assigned (the column types do not re-validate
at this layer). -/
structure Person where
  id : Nat
  name : Json
  gender : Json
  age : Json

/-- `Person.format` (src/models.py lines 97-103). -/
def Person.format (p : Person) : Json :=
  .obj [("id", .int p.id), ("name", p.name), ("gender", p.gender), ("age", p.age)]

/-- `Game` model (src/models.py lines 109-137). -/
structure Game where
  id : Nat
  title : Json
  release_date : Json

/-- `Game.format` (src/models.py lines 132-137). -/
def Game.format (g : Game) : Json :=
  .obj [("id", .int g.id), ("title", g.title), ("release_date", g.release_date)]

/-- The `persons` table plus the sequence feeding its primary key. -/
structure PersonsDB where
  rows : List Person
  nextId : Nat

/-- The `games` table plus the sequence feeding its primary key. -/
structure GamesDB where
  rows : List Game
  nextId : Nat

/-- Outcome of one handler body: `jsonify(...)` (a 200 response) or
`abort(status, dict)` where the dict carries the message `m`. -/
inductive HRes where
  | ok (body : Json)
  | err (status : Nat) (message : String)

/-- The registered error handlers (src/app.py lines 391-413) turn an abort
carrying a message into the error envelope; a 200 passes through. -/
def finalize : HRes → Nat × Json
  | .ok b => (200, b)
  | .err s m =>
      (s, .obj [("success", .bool false), ("error", .int s), ("message", .str m)])

/-! ### Handler bodies (src/app.py)

Each view function is embedded as a pure function from the relevant table
state and request data to an `HRes` and the table state after the request
(aborts raise before any persistence call, so they return the state
unchanged). -/

/-- `get_persons` body (src/app.py lines 97-106). -/
def get_persons (db : PersonsDB) (page : Int) : HRes :=
  let selection := db.rows
  let persons_paginated := paginate_results Person.format page selection
  if persons_paginated.length = 0 then
    .err 404 "no persons found in database."
  else
    .ok (.obj [("success", .bool true), ("persons", .arr persons_paginated)])

/-- `insert_persons` body (src/app.py lines 121-152).  The new row receives
the next primary key from the sequence. -/
def insert_persons (db : PersonsDB) (body : Option (List (String × Json))) :
    HRes × PersonsDB :=
  if !truthyBody body then
    (.err 400 "request does not contain a valid JSON body.", db)
  else
    let kvs := body.getD []
    let name := dictGet kvs "name" .null
    let age := dictGet kvs "age" .null
    let gender := dictGet kvs "gender" (.str "Other")
    if !truthy name then
      (.err 422 "no name provided.", db)
    else if !truthy age then
      (.err 422 "no age provided.", db)
    else
      let new_person : Person := ⟨db.nextId, name, gender, age⟩
      (.ok (.obj [("success", .bool true), ("created", .int db.nextId)]),
       ⟨db.rows ++ [new_person], db.nextId + 1⟩)

/-- `edit_persons` body (src/app.py lines 156-202).  `person_id` is the raw
path segment; the `Person.id == person_id` filter is modelled on canonical
decimal strings. -/
def edit_persons (db : PersonsDB) (person_id : String)
    (body : Option (List (String × Json))) : HRes × PersonsDB :=
  if person_id == "" then
    (.err 400 "please append an person id to the request url.", db)
  else if !truthyBody body then
    (.err 400 "request does not contain a valid JSON body.", db)
  else
    match db.rows.find? (fun p => toString p.id == person_id) with
    | none =>
        (.err 404 ("Person with id " ++ person_id ++ " not found in database."), db)
    | some person_to_update =>
        let kvs := body.getD []
        let updated : Person :=
          { person_to_update with
            name := dictGet kvs "name" person_to_update.name,
            age := dictGet kvs "age" person_to_update.age,
            gender := dictGet kvs "gender" person_to_update.gender }
        (.ok (.obj [("success", .bool true),
                    ("updated", .int person_to_update.id),
                    ("person", .arr [updated.format])]),
         ⟨db.rows.map (fun q => if q.id == person_to_update.id then updated else q),
          db.nextId⟩)

/-- `delete_persons` body (src/app.py lines 206-235). -/
def delete_persons (db : PersonsDB) (person_id : String) : HRes × PersonsDB :=
  if person_id == "" then
    (.err 400 "please append an person id to the request url.", db)
  else
    match db.rows.find? (fun p => toString p.id == person_id) with
    | none =>
        (.err 404 ("Person with id " ++ person_id ++ " not found in database."), db)
    | some person_to_delete =>
        (.ok (.obj [("success", .bool true), ("deleted", .str person_id)]),
         ⟨db.rows.filter (fun q => q.id != person_to_delete.id), db.nextId⟩)

/-- `get_games` body (src/app.py lines 253-262). -/
def get_games (db : GamesDB) (page : Int) : HRes :=
  let selection := db.rows
  let games_paginated := paginate_results Game.format page selection
  if games_paginated.length = 0 then
    .err 404 "no games found in database."
  else
    .ok (.obj [("success", .bool true), ("games", .arr games_paginated)])

/-- `insert_games` body (src/app.py lines 277-304). -/
def insert_games (db : GamesDB) (body : Option (List (String × Json))) :
    HRes × GamesDB :=
  if !truthyBody body then
    (.err 400 "request does not contain a valid JSON body.", db)
  else
    let kvs := body.getD []
    let title := dictGet kvs "title" .null
    let release_date := dictGet kvs "release_date" .null
    if !truthy title then
      (.err 422 "no title provided.", db)
    else if !truthy release_date then
      (.err 422 "no \"release_date\" provided.", db)
    else
      let new_game : Game := ⟨db.nextId, title, release_date⟩
      (.ok (.obj [("success", .bool true), ("created", .int db.nextId)]),
       ⟨db.rows ++ [new_game], db.nextId + 1⟩)

/-- `edit_games` body (src/app.py lines 308-352). -/
def edit_games (db : GamesDB) (game_id : String)
    (body : Option (List (String × Json))) : HRes × GamesDB :=
  if game_id == "" then
    (.err 400 "please append an game id to the request url.", db)
  else if !truthyBody body then
    (.err 400 "request does not contain a valid JSON body.", db)
  else
    match db.rows.find? (fun g => toString g.id == game_id) with
    | none =>
        (.err 404 ("Game with id " ++ game_id ++ " not found in database."), db)
    | some game_to_update =>
        let kvs := body.getD []
        let updated : Game :=
          { game_to_update with
            title := dictGet kvs "title" game_to_update.title,
            release_date := dictGet kvs "release_date" game_to_update.release_date }
        (.ok (.obj [("success", .bool true),
                    ("edited", .int game_to_update.id),
                    ("game", .arr [updated.format])]),
         ⟨db.rows.map (fun q => if q.id == game_to_update.id then updated else q),
          db.nextId⟩)

/-- `delete_games` body (src/app.py lines 356-385). -/
def delete_games (db : GamesDB) (game_id : String) : HRes × GamesDB :=
  if game_id == "" then
    (.err 400 "please append an game id to the request url.", db)
  else
    match db.rows.find? (fun g => toString g.id == game_id) with
    | none =>
        (.err 404 ("Game with id " ++ game_id ++ " not found in database."), db)
    | some game_to_delete =>
        (.ok (.obj [("success", .bool true), ("deleted", .str game_id)]),
         ⟨db.rows.filter (fun q => q.id != game_to_delete.id), db.nextId⟩)

/-! ### Authorization layer

`auth.py` is imported by src/app.py but is not among the sources, so the
gate is modelled from the spec (§4.1). -/

/-- Modelled from the spec: the decoded token payload; only the
`permissions` claim (a list of strings, possibly absent) matters to the
gate. -/
structure Payload where
  permissions : Option (List String)

/-- Modelled from the spec: the outcome of decoding and verifying a bearer
token against the identity provider's key set — expiry, issuer/audience
claims and signature checking are external, so they enter as an oracle
`String → TokenDecode`. -/
inductive TokenDecode where
  | expired
  | invalidClaims
  | invalid
  | ok (payload : Payload)

/-- Modelled from the spec: extraction of the token from the
`Authorization` header.  Absent header → 401 "Authorization header is
expected."; a header that does not consist of `Bearer` followed by exactly
one token → 401 (the spec fixes only the missing-header message, the other
401 texts are representative). -/
def get_token_auth_header (header : Option String) : Except (Nat × String) String :=
  match header with
  | none => .error (401, "Authorization header is expected.")
  | some h =>
      match h.splitOn " " with
      | [b, t] =>
          if b == "Bearer" then .ok t
          else .error (401, "Authorization header must start with Bearer.")
      | [_] => .error (401, "Token not found.")
      | _ => .error (401, "Authorization header must be bearer token.")

/-- Modelled from the spec: the permissions check — claim absent → 400,
required permission not in the list → 403 "Permission not found.". -/
def check_permissions (permission : String) (payload : Payload) :
    Except (Nat × String) Unit :=
  match payload.permissions with
  | none => .error (400, "Permissions claim missing in token.")
  | some ps =>
      if ps.contains permission then .ok ()
      else .error (403, "Permission not found.")

/-- Modelled from the spec: the full `requires_auth` verification pipeline —
header extraction, token verification, permission check; on success the
decoded payload is handed to the wrapped view. -/
def requires_auth_gate (permission : String) (decode : String → TokenDecode)
    (header : Option String) : Except (Nat × String) Payload :=
  match get_token_auth_header header with
  | .error e => .error e
  | .ok token =>
      match decode token with
      | .expired => .error (401, "Token expired.")
      | .invalidClaims => .error (401, "Incorrect claims.")
      | .invalid => .error (401, "Unable to parse authentication token.")
      | .ok payload =>
          match check_permissions permission payload with
          | .error e => .error e
          | .ok _ => .ok payload

/-- One gated request against a table of type `DB`: on a gate failure the
`AuthError` handler (src/app.py lines 415-421) formats the error and the
view is never invoked; on success the view runs on the current state. -/
def gatedRequest {DB : Type} (permission : String) (decode : String → TokenDecode)
    (header : Option String) (view : Payload → DB → HRes × DB) (db : DB) :
    (Nat × Json) × DB :=
  match requires_auth_gate permission decode header with
  | .error (s, m) =>
      ((s, .obj [("success", .bool false), ("error", .int s), ("message", .str m)]), db)
  | .ok payload =>
      let (r, db2) := view payload db
      (finalize r, db2)

/-! ### View-function signatures and the decorator calling convention

The arity facts below are read off the `def` lines of src/app.py; the
calling convention (payload prepended to the route arguments) is modelled
from spec §4.1. -/

inductive Endpoint where
  | getPersons
  | postPersons
  | patchPersons
  | deletePersons
  | getGames
  | postGames
  | patchGames
  | deleteGames
deriving DecidableEq

/-- Number of parameters each view function declares in src/app.py:
`def get_persons():` (line 86) and `def insert_persons():` (line 110) take
none; `def get_games(payload):` (line 242) and
`def insert_games(payload):` (line 266) take one; the PATCH and DELETE
views take `(payload, <id>)`. -/
def viewParamCount : Endpoint → Nat
  | .getPersons => 0
  | .postPersons => 0
  | .patchPersons => 2
  | .deletePersons => 2
  | .getGames => 1
  | .postGames => 1
  | .patchGames => 2
  | .deleteGames => 2

/-- URL path parameters supplied by the route (`<person_id>` / `<game_id>`
on PATCH and DELETE, none on the collection routes). -/
def routeParamCount : Endpoint → Nat
  | .getPersons => 0
  | .postPersons => 0
  | .patchPersons => 1
  | .deletePersons => 1
  | .getGames => 0
  | .postGames => 0
  | .patchGames => 1
  | .deleteGames => 1

/-- Modelled from the spec: after a successful gate, `requires_auth` calls
the wrapped view with the decoded payload prepended to the route
arguments. -/
def authorizedCallArgCount (e : Endpoint) : Nat := 1 + routeParamCount e

/-- A Python call binds iff the supplied argument count equals the declared
parameter count (none of the views has defaults or varargs); otherwise the
call raises `TypeError`, which Flask maps to a 500 response. -/
def callBinds (e : Endpoint) : Bool :=
  authorizedCallArgCount e == viewParamCount e

/-- The row of the persons table carrying primary key `i`. -/
def storedPerson (db : PersonsDB) (i : Nat) : Option Person :=
  db.rows.find? (fun q => q.id == i)

/-- The row of the games table carrying primary key `i`. -/
def storedGame (db : GamesDB) (i : Nat) : Option Game :=
  db.rows.find? (fun q => q.id == i)

/-! ### Helper lemmas -/

lemma pythonSlice_nonneg {β : Type} (l : List β) (a b : Int) (h0 : 0 ≤ a)
    (hab : a ≤ b) :
    pythonSlice l a b = (l.drop a.toNat).take (b - a).toNat := by
  have h0b : (0:Int) ≤ b := le_trans h0 hab
  simp only [pythonSlice, pyBound, if_pos h0, if_pos h0b]
  rcases le_or_lt l.length a.toNat with hna | han
  · rw [min_eq_right hna, List.drop_length, List.drop_of_length_le hna]
    simp
  · rw [min_eq_left (le_of_lt han)]
    rcases le_or_lt b.toNat l.length with hbn | hnb
    · rw [min_eq_left hbn]
      have hba : b.toNat - a.toNat = (b - a).toNat := by omega
      rw [hba]
    · rw [min_eq_right (le_of_lt hnb)]
      rw [List.take_of_length_le (by rw [List.length_drop]),
          List.take_of_length_le (by rw [List.length_drop]; omega)]

lemma dictGet_of_lookup_none (kvs : List (String × Json)) (k : String) (d : Json)
    (h : lookupKey kvs k = none) : dictGet kvs k d = d := by
  unfold dictGet
  unfold lookupKey at h
  cases hf : kvs.find? (fun kv => kv.1 == k) with
  | none => rfl
  | some kv => rw [hf] at h; simp at h

lemma dictGet_of_lookup_some (kvs : List (String × Json)) (k : String) (d v : Json)
    (h : lookupKey kvs k = some v) : dictGet kvs k d = v := by
  unfold dictGet
  unfold lookupKey at h
  cases hf : kvs.find? (fun kv => kv.1 == k) with
  | none => rw [hf] at h; simp at h
  | some kv => rw [hf] at h; simp at h; exact h

/-- Replacing the first-found row with a row of the same key: a subsequent
lookup by that key returns the replacement. -/
lemma find_after_replace {β : Type} (idOf : β → Nat) (rows : List β) (i : Nat)
    (p p2 : β) (hfound : rows.find? (fun q => idOf q == i) = some p)
    (hid : idOf p2 = i) :
    (rows.map (fun q => if idOf q == i then p2 else q)).find? (fun q => idOf q == i)
      = some p2 := by
  induction rows with
  | nil => simp at hfound
  | cons q rest ih =>
      rw [List.map_cons]
      by_cases h : idOf q = i
      · have hq : (idOf q == i) = true := by simp [h]
        rw [if_pos hq, List.find?_cons_of_pos _ (by simp [hid])]
      · have hq : (idOf q == i) = false := by simp [h]
        rw [if_neg (by simp [hq]), List.find?_cons_of_neg _ (by simp [hq])]
        rw [List.find?_cons_of_neg _ (by simp [hq])] at hfound
        exact ih hfound

/-! ### Claim theorems -/

/-- C1: the spec claims the decoded payload is passed through as an argument
to every wrapped view and that GET /persons and POST /persons then succeed.
Under that calling convention the call binds for the six views declaring a
`payload` parameter, but `get_persons` and `insert_persons` declare none, so
an authorized GET /persons or POST /persons raises `TypeError` (HTTP 500)
instead of executing the handler — contradicting the repo's own tests
`test_get_all_persons` and `test_create_new_person`. -/
theorem payload_passthrough_broken_for_persons :
    callBinds .getPersons = false ∧ callBinds .postPersons = false
    ∧ callBinds .patchPersons = true ∧ callBinds .deletePersons = true
    ∧ callBinds .getGames = true ∧ callBinds .postGames = true
    ∧ callBinds .patchGames = true ∧ callBinds .deleteGames = true := by
  decide

/-- C2: for every page `p ≥ 1`, `paginate_results` returns exactly the slice
`C[(p-1)*N : p*N]` of the formatted records (`N = ROWS_PER_PAGE`), and when
`p` is beyond the range of `C` it returns the empty list; as a total
function it raises no error at the pagination layer. -/
theorem paginate_results_is_slice {α : Type} (format : α → Json) (p : Int)
    (C : List α) (hp : 1 ≤ p) :
    paginate_results format p C
      = ((C.map format).drop ((p - 1).toNat * ROWS_PER_PAGE)).take ROWS_PER_PAGE
    ∧ ((C.map format).length ≤ (p - 1).toNat * ROWS_PER_PAGE →
        paginate_results format p C = []) := by
  have h0 : (0:Int) ≤ (p - 1) * (ROWS_PER_PAGE : Int) := by
    simp only [ROWS_PER_PAGE]
    omega
  have hab : (p - 1) * (ROWS_PER_PAGE : Int)
      ≤ (p - 1) * (ROWS_PER_PAGE : Int) + (ROWS_PER_PAGE : Int) := by
    simp only [ROWS_PER_PAGE]
    omega
  have e1 : ((p - 1) * (ROWS_PER_PAGE : Int)).toNat
      = (p - 1).toNat * ROWS_PER_PAGE := by
    simp only [ROWS_PER_PAGE]
    omega
  have e2 : ((p - 1) * (ROWS_PER_PAGE : Int) + (ROWS_PER_PAGE : Int)
      - (p - 1) * (ROWS_PER_PAGE : Int)).toNat = ROWS_PER_PAGE := by
    simp only [ROWS_PER_PAGE]
    omega
  have key : paginate_results format p C
      = ((C.map format).drop ((p - 1).toNat * ROWS_PER_PAGE)).take ROWS_PER_PAGE := by
    simp only [paginate_results]
    rw [pythonSlice_nonneg _ _ _ h0 hab, e1, e2]
  refine ⟨key, fun hlen => ?_⟩
  rw [key, List.drop_of_length_le hlen]
  simp

/-- Witness for C2: page 2 over a single-row table is beyond range and
yields the empty slice. -/
theorem paginate_results_is_slice_witness :
    paginate_results Person.format 2
      [⟨1, Json.str "Matthew", Json.str "Male", Json.int 25⟩] = [] := by
  have h := paginate_results_is_slice Person.format 2
    [⟨1, Json.str "Matthew", Json.str "Male", Json.int 25⟩] (by decide)
  exact h.2 (by simp [ROWS_PER_PAGE])

/-- C5: whenever the paginated slice is empty — empty table or page beyond
range alike — the GET list handlers abort with 404 and the fixed message,
which the error handler formats into the error envelope. -/
theorem get_list_404_on_empty_slice (dbP : PersonsDB) (dbG : GamesDB)
    (pageP pageG : Int)
    (hP : paginate_results Person.format pageP dbP.rows = [])
    (hG : paginate_results Game.format pageG dbG.rows = []) :
    finalize (get_persons dbP pageP)
      = (404, .obj [("success", .bool false), ("error", .int 404),
                    ("message", .str "no persons found in database.")])
    ∧ finalize (get_games dbG pageG)
      = (404, .obj [("success", .bool false), ("error", .int 404),
                    ("message", .str "no games found in database.")]) := by
  constructor
  · simp only [get_persons, hP]
    rfl
  · simp only [get_games, hG]
    rfl

/-- Witness for C5: both list endpoints 404 on an empty table at page 1. -/
theorem get_list_404_on_empty_slice_witness :
    finalize (get_persons ⟨[], 1⟩ 1)
      = (404, .obj [("success", .bool false), ("error", .int 404),
                    ("message", .str "no persons found in database.")])
    ∧ finalize (get_games ⟨[], 1⟩ 1)
      = (404, .obj [("success", .bool false), ("error", .int 404),
                    ("message", .str "no games found in database.")]) :=
  get_list_404_on_empty_slice ⟨[], 1⟩ ⟨[], 1⟩ 1 1 rfl rfl

/-- C9: a request that fails the authorization gate is answered by the
`AuthError` handler alone: whatever the view would do, the response is the
formatted auth error and the table state is unchanged — no validation and
no persistence call happens. -/
theorem auth_failure_no_side_effects {DB : Type} (permission : String)
    (decode : String → TokenDecode) (header : Option String) (s : Nat)
    (m : String)
    (hfail : requires_auth_gate permission decode header = .error (s, m))
    (view : Payload → DB → HRes × DB) (db : DB) :
    (gatedRequest permission decode header view db).2 = db
    ∧ (gatedRequest permission decode header view db).1
      = (s, .obj [("success", .bool false), ("error", .int s),
                  ("message", .str m)]) := by
  unfold gatedRequest
  rw [hfail]
  exact ⟨rfl, rfl⟩

/-- Witness for C9: a DELETE /persons/1 request with no Authorization header
is rejected with 401 and leaves the table untouched. -/
theorem auth_failure_no_side_effects_witness :
    (gatedRequest "delete:persons" (fun _ => TokenDecode.ok ⟨some []⟩) none
        (fun _ db => delete_persons db "1") (⟨[], 1⟩ : PersonsDB)).2
      = (⟨[], 1⟩ : PersonsDB)
    ∧ (gatedRequest "delete:persons" (fun _ => TokenDecode.ok ⟨some []⟩) none
        (fun _ db => delete_persons db "1") (⟨[], 1⟩ : PersonsDB)).1
      = (401, .obj [("success", .bool false), ("error", .int 401),
                    ("message", .str "Authorization header is expected.")]) :=
  auth_failure_no_side_effects "delete:persons" (fun _ => TokenDecode.ok ⟨some []⟩)
    none 401 "Authorization header is expected." rfl
    (fun _ db => delete_persons db "1") ⟨[], 1⟩

/-- C10: both POST handlers reject a missing or falsy JSON body with 400 and
the fixed message before any field validation (the empty object also lacks
every required field, yet the response is 400, not 422), and the table is
unchanged. -/
theorem post_requires_json_body (dbP : PersonsDB) (dbG : GamesDB) :
    insert_persons dbP none
      = (.err 400 "request does not contain a valid JSON body.", dbP)
    ∧ insert_persons dbP (some [])
      = (.err 400 "request does not contain a valid JSON body.", dbP)
    ∧ insert_games dbG none
      = (.err 400 "request does not contain a valid JSON body.", dbG)
    ∧ insert_games dbG (some [])
      = (.err 400 "request does not contain a valid JSON body.", dbG) :=
  ⟨rfl, rfl, rfl, rfl⟩

/-- C6: a POST whose (truthy) JSON body misses a required field aborts with
422 and a message naming the field, and the table is returned unchanged —
no record is inserted. -/
theorem post_missing_field_422 (dbP : PersonsDB) (dbG : GamesDB)
    (kvs1 kvs2 kvs3 kvs4 : List (String × Json)) :
    (kvs1 ≠ [] → lookupKey kvs1 "name" = none →
      insert_persons dbP (some kvs1) = (.err 422 "no name provided.", dbP))
    ∧ (kvs2 ≠ [] → truthy (dictGet kvs2 "name" .null) = true →
        lookupKey kvs2 "age" = none →
        insert_persons dbP (some kvs2) = (.err 422 "no age provided.", dbP))
    ∧ (kvs3 ≠ [] → lookupKey kvs3 "title" = none →
        insert_games dbG (some kvs3) = (.err 422 "no title provided.", dbG))
    ∧ (kvs4 ≠ [] → truthy (dictGet kvs4 "title" .null) = true →
        lookupKey kvs4 "release_date" = none →
        insert_games dbG (some kvs4)
          = (.err 422 "no \"release_date\" provided.", dbG)) := by
  refine ⟨fun h1 h2 => ?_, fun h1 hn h2 => ?_, fun h1 h2 => ?_, fun h1 ht h2 => ?_⟩
  · have hb : truthyBody (some kvs1) = true := by
      cases kvs1 with
      | nil => exact absurd rfl h1
      | cons x l => rfl
    simp [insert_persons, hb, dictGet_of_lookup_none _ _ _ h2,
          show truthy Json.null = false from rfl]
  · have hb : truthyBody (some kvs2) = true := by
      cases kvs2 with
      | nil => exact absurd rfl h1
      | cons x l => rfl
    simp [insert_persons, hb, hn, dictGet_of_lookup_none _ _ _ h2,
          show truthy Json.null = false from rfl]
  · have hb : truthyBody (some kvs3) = true := by
      cases kvs3 with
      | nil => exact absurd rfl h1
      | cons x l => rfl
    simp [insert_games, hb, dictGet_of_lookup_none _ _ _ h2,
          show truthy Json.null = false from rfl]
  · have hb : truthyBody (some kvs4) = true := by
      cases kvs4 with
      | nil => exact absurd rfl h1
      | cons x l => rfl
    simp [insert_games, hb, ht, dictGet_of_lookup_none _ _ _ h2,
          show truthy Json.null = false from rfl]

/-- Witness for C6: the four missing-field POSTs at concrete bodies. -/
theorem post_missing_field_422_witness :
    insert_persons ⟨[], 1⟩ (some [("age", Json.int 25)])
      = (.err 422 "no name provided.", ⟨[], 1⟩)
    ∧ insert_persons ⟨[], 1⟩ (some [("name", Json.str "Crisso")])
      = (.err 422 "no age provided.", ⟨[], 1⟩)
    ∧ insert_games ⟨[], 1⟩ (some [("release_date", Json.str "2020-01-01")])
      = (.err 422 "no title provided.", ⟨[], 1⟩)
    ∧ insert_games ⟨[], 1⟩ (some [("title", Json.str "Crisso Game")])
      = (.err 422 "no \"release_date\" provided.", ⟨[], 1⟩) := by
  have h := post_missing_field_422 ⟨[], 1⟩ ⟨[], 1⟩ [("age", Json.int 25)]
    [("name", Json.str "Crisso")] [("release_date", Json.str "2020-01-01")]
    [("title", Json.str "Crisso Game")]
  exact ⟨h.1 (List.cons_ne_nil _ _) rfl, h.2.1 (List.cons_ne_nil _ _) rfl rfl,
         h.2.2.1 (List.cons_ne_nil _ _) rfl, h.2.2.2 (List.cons_ne_nil _ _) rfl rfl⟩

/-- C7: POST /persons with a truthy name and age and no gender key creates
the row with gender `"Other"` and answers the success envelope carrying the
new row's integer id. -/
theorem post_persons_gender_defaults (db : PersonsDB)
    (kvs : List (String × Json)) (n a : Json)
    (hname : lookupKey kvs "name" = some n) (hn : truthy n = true)
    (hage : lookupKey kvs "age" = some a) (ha : truthy a = true)
    (hgender : lookupKey kvs "gender" = none) (hkvs : kvs ≠ []) :
    insert_persons db (some kvs)
      = (.ok (.obj [("success", .bool true), ("created", .int db.nextId)]),
         ⟨db.rows ++ [⟨db.nextId, n, .str "Other", a⟩], db.nextId + 1⟩) := by
  have hb : truthyBody (some kvs) = true := by
    cases kvs with
    | nil => exact absurd rfl hkvs
    | cons x l => rfl
  simp [insert_persons, hb, dictGet_of_lookup_some _ _ _ _ hname,
        dictGet_of_lookup_some _ _ _ _ hage, dictGet_of_lookup_none _ _ _ hgender,
        hn, ha]

/-- Witness for C7: the spec's scenario 1 body. -/
theorem post_persons_gender_defaults_witness :
    insert_persons ⟨[], 1⟩
        (some [("name", Json.str "Crisso"), ("age", Json.int 25)])
      = (.ok (.obj [("success", .bool true), ("created", .int 1)]),
         ⟨[⟨1, Json.str "Crisso", Json.str "Other", Json.int 25⟩], 2⟩) :=
  post_persons_gender_defaults ⟨[], 1⟩
    [("name", Json.str "Crisso"), ("age", Json.int 25)]
    (Json.str "Crisso") (Json.int 25) rfl rfl rfl rfl rfl (List.cons_ne_nil _ _)

/-- C8: the DELETE handlers take no body, and on an existing id the success
envelope echoes the raw path-segment string, not the row's integer id. -/
theorem delete_echoes_string_id (dbP : PersonsDB) (dbG : GamesDB)
    (pid gid : String) (p : Person) (g : Game)
    (hpid : pid ≠ "") (hgid : gid ≠ "")
    (hp : dbP.rows.find? (fun q => toString q.id == pid) = some p)
    (hg : dbG.rows.find? (fun q => toString q.id == gid) = some g) :
    (delete_persons dbP pid).1
      = .ok (.obj [("success", .bool true), ("deleted", .str pid)])
    ∧ (delete_games dbG gid).1
      = .ok (.obj [("success", .bool true), ("deleted", .str gid)]) := by
  constructor
  · have h1 : (pid == "") = false := by simp [hpid]
    simp [delete_persons, h1, hp]
  · have h1 : (gid == "") = false := by simp [hgid]
    simp [delete_games, h1, hg]

/-- Witness for C8: deleting id "1" echoes the string "1". -/
theorem delete_echoes_string_id_witness :
    (delete_persons ⟨[⟨1, Json.str "Matthew", Json.str "Male", Json.int 25⟩], 2⟩ "1").1
      = .ok (.obj [("success", .bool true), ("deleted", .str "1")])
    ∧ (delete_games ⟨[⟨1, Json.str "G", Json.str "2020-01-01"⟩], 2⟩ "1").1
      = .ok (.obj [("success", .bool true), ("deleted", .str "1")]) :=
  delete_echoes_string_id
    ⟨[⟨1, Json.str "Matthew", Json.str "Male", Json.int 25⟩], 2⟩
    ⟨[⟨1, Json.str "G", Json.str "2020-01-01"⟩], 2⟩ "1" "1"
    ⟨1, Json.str "Matthew", Json.str "Male", Json.int 25⟩
    ⟨1, Json.str "G", Json.str "2020-01-01"⟩
    (by decide) (by decide) rfl rfl

/-- On the found branch, `edit_persons` rewrites exactly the matched row,
filling omitted fields from the current values. -/
lemma edit_persons_found (dbP : PersonsDB) (pid : String)
    (kvs : List (String × Json)) (p : Person)
    (hpid : pid ≠ "") (hkvs : kvs ≠ [])
    (hfind : dbP.rows.find? (fun q => toString q.id == pid) = some p) :
    (edit_persons dbP pid (some kvs)).2.rows
      = dbP.rows.map (fun q => if q.id == p.id
          then { p with name := dictGet kvs "name" p.name,
                        age := dictGet kvs "age" p.age,
                        gender := dictGet kvs "gender" p.gender }
          else q) := by
  have h1 : (pid == "") = false := by simp [hpid]
  have hb : truthyBody (some kvs) = true := by
    cases kvs with
    | nil => exact absurd rfl hkvs
    | cons x l => rfl
  simp [edit_persons, h1, hb, hfind]

/-- On the found branch, `edit_games` rewrites exactly the matched row,
filling omitted fields from the current values. -/
lemma edit_games_found (dbG : GamesDB) (gid : String)
    (kvs : List (String × Json)) (g : Game)
    (hgid : gid ≠ "") (hkvs : kvs ≠ [])
    (hfind : dbG.rows.find? (fun q => toString q.id == gid) = some g) :
    (edit_games dbG gid (some kvs)).2.rows
      = dbG.rows.map (fun q => if q.id == g.id
          then { g with title := dictGet kvs "title" g.title,
                        release_date := dictGet kvs "release_date" g.release_date }
          else q) := by
  have h1 : (gid == "") = false := by simp [hgid]
  have hb : truthyBody (some kvs) = true := by
    cases kvs with
    | nil => exact absurd rfl hkvs
    | cons x l => rfl
  simp [edit_games, h1, hb, hfind]

/-- After a successful PATCH, the stored row at the target key is the
rewritten record. -/
lemma storedPerson_after_edit (dbP : PersonsDB) (pid : String)
    (kvs : List (String × Json)) (p : Person)
    (hpid : pid ≠ "") (hkvs : kvs ≠ [])
    (hfind : dbP.rows.find? (fun q => toString q.id == pid) = some p)
    (hstored : storedPerson dbP p.id = some p) :
    storedPerson (edit_persons dbP pid (some kvs)).2 p.id
      = some { p with name := dictGet kvs "name" p.name,
                      age := dictGet kvs "age" p.age,
                      gender := dictGet kvs "gender" p.gender } := by
  unfold storedPerson
  rw [edit_persons_found dbP pid kvs p hpid hkvs hfind]
  exact find_after_replace Person.id dbP.rows p.id p _ hstored rfl

/-- After a successful PATCH, the stored row at the target key is the
rewritten record. -/
lemma storedGame_after_edit (dbG : GamesDB) (gid : String)
    (kvs : List (String × Json)) (g : Game)
    (hgid : gid ≠ "") (hkvs : kvs ≠ [])
    (hfind : dbG.rows.find? (fun q => toString q.id == gid) = some g)
    (hstored : storedGame dbG g.id = some g) :
    storedGame (edit_games dbG gid (some kvs)).2 g.id
      = some { g with title := dictGet kvs "title" g.title,
                      release_date := dictGet kvs "release_date" g.release_date } := by
  unfold storedGame
  rw [edit_games_found dbG gid kvs g hgid hkvs hfind]
  exact find_after_replace Game.id dbG.rows g.id g _ hstored rfl

/-- C3: for a PATCH on an existing Person or Game, every field whose key the
JSON body omits keeps its stored value — omitted fields fall back to the
current record, they are never cleared. -/
theorem patch_omitted_fields_unchanged (dbP : PersonsDB) (dbG : GamesDB)
    (pid gid : String) (kvs kvsG : List (String × Json)) (p : Person) (g : Game)
    (hpid : pid ≠ "") (hgid : gid ≠ "") (hkvs : kvs ≠ []) (hkvsG : kvsG ≠ [])
    (hfindP : dbP.rows.find? (fun q => toString q.id == pid) = some p)
    (hfindG : dbG.rows.find? (fun q => toString q.id == gid) = some g)
    (hstoredP : storedPerson dbP p.id = some p)
    (hstoredG : storedGame dbG g.id = some g) :
    (lookupKey kvs "name" = none →
      (storedPerson (edit_persons dbP pid (some kvs)).2 p.id).map Person.name
        = (storedPerson dbP p.id).map Person.name)
    ∧ (lookupKey kvs "age" = none →
      (storedPerson (edit_persons dbP pid (some kvs)).2 p.id).map Person.age
        = (storedPerson dbP p.id).map Person.age)
    ∧ (lookupKey kvs "gender" = none →
      (storedPerson (edit_persons dbP pid (some kvs)).2 p.id).map Person.gender
        = (storedPerson dbP p.id).map Person.gender)
    ∧ (lookupKey kvsG "title" = none →
      (storedGame (edit_games dbG gid (some kvsG)).2 g.id).map Game.title
        = (storedGame dbG g.id).map Game.title)
    ∧ (lookupKey kvsG "release_date" = none →
      (storedGame (edit_games dbG gid (some kvsG)).2 g.id).map Game.release_date
        = (storedGame dbG g.id).map Game.release_date) := by
  have hP := storedPerson_after_edit dbP pid kvs p hpid hkvs hfindP hstoredP
  have hG := storedGame_after_edit dbG gid kvsG g hgid hkvsG hfindG hstoredG
  refine ⟨fun hnone => ?_, fun hnone => ?_, fun hnone => ?_,
          fun hnone => ?_, fun hnone => ?_⟩
  · rw [hP, hstoredP]
    simp [dictGet_of_lookup_none _ _ _ hnone]
  · rw [hP, hstoredP]
    simp [dictGet_of_lookup_none _ _ _ hnone]
  · rw [hP, hstoredP]
    simp [dictGet_of_lookup_none _ _ _ hnone]
  · rw [hG, hstoredG]
    simp [dictGet_of_lookup_none _ _ _ hnone]
  · rw [hG, hstoredG]
    simp [dictGet_of_lookup_none _ _ _ hnone]

/-- Witness for C3: a PATCH changing only the age keeps the stored name, and
a PATCH changing only the title keeps the stored release date. -/
theorem patch_omitted_fields_unchanged_witness :
    (storedPerson (edit_persons
          ⟨[⟨1, Json.str "Matthew", Json.str "Male", Json.int 25⟩], 2⟩ "1"
          (some [("age", Json.int 30)])).2 1).map Person.name
      = (storedPerson
          ⟨[⟨1, Json.str "Matthew", Json.str "Male", Json.int 25⟩], 2⟩ 1).map Person.name
    ∧ (storedGame (edit_games
          ⟨[⟨1, Json.str "Matthew first Game", Json.str "2020-01-01"⟩], 2⟩ "1"
          (some [("title", Json.str "New Title")])).2 1).map Game.release_date
      = (storedGame
          ⟨[⟨1, Json.str "Matthew first Game", Json.str "2020-01-01"⟩], 2⟩ 1).map Game.release_date := by
  have h := patch_omitted_fields_unchanged
    ⟨[⟨1, Json.str "Matthew", Json.str "Male", Json.int 25⟩], 2⟩
    ⟨[⟨1, Json.str "Matthew first Game", Json.str "2020-01-01"⟩], 2⟩
    "1" "1" [("age", Json.int 30)] [("title", Json.str "New Title")]
    ⟨1, Json.str "Matthew", Json.str "Male", Json.int 25⟩
    ⟨1, Json.str "Matthew first Game", Json.str "2020-01-01"⟩
    (by decide) (by decide) (List.cons_ne_nil _ _) (List.cons_ne_nil _ _)
    rfl rfl rfl rfl
  exact ⟨h.1 rfl, h.2.2.2.2 rfl⟩

/-- C4 counterexample: PATCH performs no non-emptiness validation, so a body
carrying an empty-string name is stored verbatim and the handler still
answers the success envelope — the claimed invariant fails on the code. -/
theorem patch_clears_name_counterexample :
    (edit_persons ⟨[⟨1, Json.str "Matthew", Json.str "Male", Json.int 25⟩], 2⟩ "1"
        (some [("name", Json.str "")])).2.rows
      = [⟨1, Json.str "", Json.str "Male", Json.int 25⟩]
    ∧ (edit_persons ⟨[⟨1, Json.str "Matthew", Json.str "Male", Json.int 25⟩], 2⟩ "1"
        (some [("name", Json.str "")])).1
      = .ok (.obj [("success", .bool true), ("updated", .int 1),
                   ("person", .arr [.obj [("id", .int 1), ("name", Json.str ""),
                                          ("gender", Json.str "Male"),
                                          ("age", Json.int 25)]])]) :=
  ⟨rfl, rfl⟩

/-- C4 as amended: the non-emptiness invariant holds for the create path —
whenever a POST succeeds, the row it appended carries a truthy (hence
non-empty when a string) name resp. title, because falsy values are rejected
with 422.  (PATCH enforces nothing, see the counterexample.) -/
theorem post_created_name_title_truthy (dbP : PersonsDB) (dbG : GamesDB)
    (bodyP bodyG : Option (List (String × Json))) (jp jg : Json)
    (hp : (insert_persons dbP bodyP).1 = .ok jp)
    (hg : (insert_games dbG bodyG).1 = .ok jg) :
    ((insert_persons dbP bodyP).2.rows
        = dbP.rows ++ [⟨dbP.nextId, dictGet (bodyP.getD []) "name" .null,
                        dictGet (bodyP.getD []) "gender" (.str "Other"),
                        dictGet (bodyP.getD []) "age" .null⟩]
      ∧ truthy (dictGet (bodyP.getD []) "name" .null) = true)
    ∧ ((insert_games dbG bodyG).2.rows
        = dbG.rows ++ [⟨dbG.nextId, dictGet (bodyG.getD []) "title" .null,
                        dictGet (bodyG.getD []) "release_date" .null⟩]
      ∧ truthy (dictGet (bodyG.getD []) "title" .null) = true) := by
  constructor
  · cases hbv : truthyBody bodyP with
    | false => simp [insert_persons, hbv] at hp
    | true =>
        cases hnv : truthy (dictGet (bodyP.getD []) "name" .null) with
        | false => simp [insert_persons, hbv, hnv] at hp
        | true =>
            cases hav : truthy (dictGet (bodyP.getD []) "age" .null) with
            | false => simp [insert_persons, hbv, hnv, hav] at hp
            | true => exact ⟨by simp [insert_persons, hbv, hnv, hav], rfl⟩
  · cases hbv : truthyBody bodyG with
    | false => simp [insert_games, hbv] at hg
    | true =>
        cases htv : truthy (dictGet (bodyG.getD []) "title" .null) with
        | false => simp [insert_games, hbv, htv] at hg
        | true =>
            cases hrv : truthy (dictGet (bodyG.getD []) "release_date" .null) with
            | false => simp [insert_games, hbv, htv, hrv] at hg
            | true => exact ⟨by simp [insert_games, hbv, htv, hrv], rfl⟩

/-- Witness for the amended C4 at two concrete successful POSTs. -/
theorem post_created_name_title_truthy_witness :
    ((insert_persons ⟨[], 1⟩
          (some [("name", Json.str "Crisso"), ("age", Json.int 25)])).2.rows
        = [⟨1, Json.str "Crisso", Json.str "Other", Json.int 25⟩]
      ∧ truthy (Json.str "Crisso") = true)
    ∧ ((insert_games ⟨[], 1⟩
          (some [("title", Json.str "G"), ("release_date", Json.str "2020-01-01")])).2.rows
        = [⟨1, Json.str "G", Json.str "2020-01-01"⟩]
      ∧ truthy (Json.str "G") = true) :=
  post_created_name_title_truthy ⟨[], 1⟩ ⟨[], 1⟩
    (some [("name", Json.str "Crisso"), ("age", Json.int 25)])
    (some [("title", Json.str "G"), ("release_date", Json.str "2020-01-01")])
    (.obj [("success", .bool true), ("created", .int 1)])
    (.obj [("success", .bool true), ("created", .int 1)])
    rfl rfl

end Capstone
